import Mathlib

/-!
Shallow embedding of the webhook push plugin core (`main.py` of
`astrbot_plugin_webhook_push`): ingestion handlers, the persistent message
queue, the batch scheduler cycle (`process_message_queue`), the delivery
strategy decision (`send_intelligently`), the batch send path with its
individual-send fallback (`send_batch_messages` / `send_individual_messages`),
and platform resolution (`get_effective_platform_name` plus the fallback
chain inside `send_batch_messages`).

Python dicts are modelled as association lists of string keys to a small
value type; external collaborators (media enrichment, game analysis, the
HTML renderer, the transport layer) are parameters of the embedded
functions, with `Except Unit` modelling a raised exception.
-/

namespace WebhookPush

/-- A value stored in a queued message dict: a string, a number (timestamps),
or a flat string-to-string mapping (HTTP headers / parsed payloads). -/
inductive Val where
  | vs (s : String)
  | vn (n : Nat)
  | vh (h : List (String × String))
  deriving DecidableEq, Repr

/-- A queued message: a Python dict, modelled as an association list. -/
abbrev Msg := List (String × Val)

/-- `d.get(k)` on a Python dict. -/
def getField (m : Msg) (k : String) : Option Val :=
  (m.find? (fun p => p.1 = k)).map (fun p => p.2)

/-- `d[k] = v` on a Python dict: replace in place if present, else append. -/
def setField (m : Msg) (k : String) (v : Val) : Msg :=
  if m.any (fun p => p.1 = k) then
    m.map (fun p => if p.1 = k then (k, v) else p)
  else
    m ++ [(k, v)]

/-- `headers.get(k)` lookup on the header mapping. -/
def lookupHeader (hs : List (String × String)) (k : String) : Option String :=
  (hs.find? (fun p => p.1 = k)).map (fun p => p.2)

/-- Runtime state shared by the HTTP handlers and the batch scheduler:
`message_queue` is the in-memory list, `kv` the durable
`persistent_msg_queue` snapshot behind `put_kv_data`/`get_kv_data`. -/
structure PluginState where
  message_queue : List Msg
  kv : List Msg
  deriving DecidableEq, Repr

/-- The configuration fields of `Main` that the embedded core reads. -/
structure Config where
  group_id : String
  platform_name : String
  batch_min_size : Nat
  webhook_token : String
  media_template : String
  game_template : String
  common_template : String
  deriving Repr

/-- `put_kv_data("persistent_msg_queue", v)`; the surrounding `try/except`
in `_save_queue` means a failed durable write (`ok = false`) leaves the
previous snapshot in place. -/
def put_kv_data (ok : Bool) (v : List Msg) (kv : List Msg) : List Msg :=
  if ok then v else kv

/-- `Main._save_queue`: persist the in-memory queue to the KV store,
swallowing persistence failures. -/
def save_queue (ok : Bool) (st : PluginState) : PluginState :=
  { st with kv := put_kv_data ok st.message_queue st.kv }

/-- `Main._enqueue`: append to the in-memory queue, then persist. -/
def enqueue (ok : Bool) (m : Msg) (st : PluginState) : PluginState :=
  save_queue ok { st with message_queue := st.message_queue ++ [m] }

/-- The capture-and-clear-then-persist block at the top of
`Main.process_message_queue`: `messages_to_process = queue.copy();
queue.clear(); await self._save_queue()`. Returns the captured batch
and the post-drain state. -/
def drain_all (ok : Bool) (st : PluginState) : List Msg × PluginState :=
  (st.message_queue, save_queue ok { st with message_queue := [] })

/-- `Main.initialize` queue restoration: `saved = get_kv_data(...); if
saved: queue.extend(saved)`. -/
def initialize_restore (st : PluginState) : PluginState :=
  if st.kv.isEmpty then st else
    { st with message_queue := st.message_queue ++ st.kv }

/-- Process restart: the in-memory queue is rebuilt empty
(`self.message_queue = []` in `__init__`) while the KV store survives. -/
def restart (st : PluginState) : PluginState :=
  { message_queue := [], kv := st.kv }

/-! ## Delivery layer -/

/-- Rendered image bytes, opaque to the dispatcher. -/
abbrev Img := String

/-- A live platform instance: its meta id and the client that
`get_client()` returns (`none` models a falsy client). -/
structure Platform where
  id : String
  client : Option String
  deriving DecidableEq, Repr

/-- The external collaborators and transports `Main` dispatches through.
`Except Unit` results model a raised exception at the call site. -/
structure SendEnv where
  /-- `HtmlRenderer.render`: `ok none` models a falsy image result. -/
  render : Msg → Except Unit (Option Img)
  /-- `context.send_message` for one individual message. -/
  sendMsg : Img → Except Unit Unit
  /-- `context.get_platform_inst`. -/
  getInst : String → Option Platform
  /-- `context.platform_manager.platform_insts`. -/
  insts : List Platform
  /-- Adapter creation plus `adapter.send_forward_messages`. -/
  forward : List Img → Except Unit Unit

/-- Lower-case a string character by character (`str.lower()`). -/
def strLower (s : String) : String :=
  String.mk (s.toList.map Char.toLower)

/-- Whether `pre` is an initial segment of `l`. -/
def startsWithChars : List Char → List Char → Bool
  | [], _ => true
  | _ :: _, [] => false
  | a :: as, b :: bs => a = b && startsWithChars as bs

/-- Whether `needle` occurs contiguously inside `hay` (Python `in` on
strings). -/
def hasInfixChars (needle : List Char) : List Char → Bool
  | [] => decide (needle = [])
  | c :: rest => startsWithChars needle (c :: rest) || hasInfixChars needle rest

/-- `Main.get_effective_platform_name`: `auto` scans the loaded platform
ids for the first of `llonebot`, `napcat`, `aiocqhttp` occurring as a
substring, else falls back to the first id or `llonebot`. -/
def get_effective_platform_name (platform_name : String)
    (available : List String) : String :=
  if platform_name = "auto" then
    match ["llonebot", "napcat", "aiocqhttp"].find?
        (fun p => available.any
          (fun name => hasInfixChars p.toList (strLower name).toList)) with
    | some p => p
    | none => available.headD "llonebot"
  else platform_name

/-- The three-step platform fallback chain in `Main.send_batch_messages`:
the effective name, then `aiocqhttp` when the name is a known OneBot
alias, then the first loaded instance. -/
def resolve_platform (getInst : String → Option Platform)
    (insts : List Platform) (effective : String) : Option Platform :=
  let p1 := getInst effective
  let p2 :=
    if p1 = none ∧ (effective = "llonebot" ∨ effective = "napcat") then
      getInst "aiocqhttp"
    else p1
  match p2 with
  | some p => some p
  | none => insts.head?

/-- Outcome of one iteration of the `send_individual_messages` loop; every
failure is caught per message and the loop continues. -/
inductive IndivOutcome where
  | renderRaised
  | noImage
  | sent
  | sendRaised
  deriving DecidableEq, Repr

/-- One iteration of the loop body of `Main.send_individual_messages`:
render, skip on falsy image, send; any exception is caught and logged. -/
def send_one (render : Msg → Except Unit (Option Img))
    (sendMsg : Img → Except Unit Unit) (msg : Msg) : IndivOutcome :=
  match render msg with
  | .error _ => .renderRaised
  | .ok none => .noImage
  | .ok (some img) =>
    match sendMsg img with
    | .ok _ => .sent
    | .error _ => .sendRaised

/-- `Main.send_individual_messages`: one attempt per message, in order. -/
def send_individual_messages (render : Msg → Except Unit (Option Img))
    (sendMsg : Img → Except Unit Unit) (messages : List Msg) :
    List IndivOutcome :=
  messages.map (send_one render sendMsg)

/-- The rendering loop at the top of `send_batch_messages`: a raised
render aborts the whole `try` block, a falsy image is skipped. -/
def renderAll (render : Msg → Except Unit (Option Img)) :
    List Msg → Except Unit (List Img)
  | [] => .ok []
  | m :: rest => do
    let r ← render m
    let rs ← renderAll render rest
    match r with
    | some img => pure (img :: rs)
    | none => pure rs

/-- Result of `Main.send_batch_messages`. -/
inductive BatchResult where
  /-- Forward package of `n` rendered items sent in one call. -/
  | sentForward (n : Nat)
  /-- `rendered_messages` empty: warn and return. -/
  | noRendered
  /-- No platform instance / no client: error logged, messages dropped. -/
  | noBot
  /-- The `try` body raised: fall back to individual sends. -/
  | fellBack (outcomes : List IndivOutcome)
  deriving DecidableEq, Repr

/-- The `try` body of `Main.send_batch_messages`: render all, bail out on
an empty rendered list, resolve a platform and its client, send the
forward package. A thrown exception surfaces as `.error`. -/
def batch_try (env : SendEnv) (effective : String) (messages : List Msg) :
    Except Unit BatchResult := do
  let rendered ← renderAll env.render messages
  if rendered.isEmpty then
    pure .noRendered
  else
    match (resolve_platform env.getInst env.insts effective).bind
        Platform.client with
    | none => pure .noBot
    | some _ => do
      env.forward rendered
      pure (.sentForward rendered.length)

/-- `Main.send_batch_messages`: on any exception in the `try` body, fall
back to `send_individual_messages` on the same message set. -/
def send_batch_messages (env : SendEnv) (effective : String)
    (messages : List Msg) : BatchResult :=
  match batch_try env effective messages with
  | .ok r => r
  | .error _ => .fellBack (send_individual_messages env.render env.sendMsg messages)

/-- What `Main.send_intelligently` did: which strategy ran and its result. -/
inductive SendReport where
  | individual (outcomes : List IndivOutcome)
  | batch (r : BatchResult)
  deriving DecidableEq, Repr

/-- `Main.send_intelligently`: `batch` when the message count reaches
`batch_min_size`, else `individual`. -/
def send_intelligently (cfg : Config) (env : SendEnv) (messages : List Msg) :
    SendReport :=
  if messages.length ≥ cfg.batch_min_size then
    .batch (send_batch_messages env
      (get_effective_platform_name cfg.platform_name (env.insts.map Platform.id))
      messages)
  else
    .individual (send_individual_messages env.render env.sendMsg messages)

/-! ## Batch scheduler cycle -/

/-- The external collaborators the enrichment loop dispatches to.
`media` is `MediaDataProcessor.detect_and_process_raw_data` (called on the
whole queued dict), `game` is `GameHandler.process_game_webhook` (called
on `msg["raw_data"]` and `msg.get("headers")`); in both, `ok none` models
a falsy result and `.error` a raised exception. -/
structure Collaborators where
  media : Msg → Except Unit (Option Msg)
  game : Val → Option Val → Except Unit (Option Msg)

/-- One iteration of the `for msg in messages_to_process` loop in
`Main.process_message_queue`: raw media and raw game records go to their
collaborator (falsy results are dropped, the processed dict is re-stamped
with `trace_id`, `template`, and for games `message_type = "game"`); any
other record is appended to `final_messages` as is. A collaborator
exception propagates (there is no `try` inside the loop). -/
def enrich_one (cfg : Config) (col : Collaborators) (msg : Msg) :
    Except Unit (List Msg) :=
  let trace_id := (getField msg "trace_id").getD (.vs "Unknown")
  if getField msg "message_type" = some (.vs "raw_media") then do
    let processed ← col.media msg
    match processed with
    | some p =>
      let p := setField p "trace_id" trace_id
      let p := setField p "template"
        ((getField msg "template").getD (.vs cfg.media_template))
      pure [p]
    | none => pure []
  else if getField msg "message_type" = some (.vs "raw_game") then do
    match getField msg "raw_data" with
    | none => Except.error ()
    | some raw => do
      let processed ← col.game raw (getField msg "headers")
      match processed with
      | some p =>
        let p := setField p "trace_id" trace_id
        let p := setField p "template"
          ((getField msg "template").getD (.vs cfg.game_template))
        let p := setField p "message_type" (.vs "game")
        pure [p]
      | none => pure []
  else
    pure [msg]

/-- The whole enrichment loop: records are processed in drained order and
the first collaborator exception aborts the loop (and loses the
`final_messages` accumulated so far). -/
def enrich_all (cfg : Config) (col : Collaborators) :
    List Msg → Except Unit (List Msg)
  | [] => .ok []
  | m :: rest => do
    let r ← enrich_one cfg col m
    let rs ← enrich_all cfg col rest
    pure (r ++ rs)

/-- `Main.process_message_queue`: guard on an empty queue or unset
`group_id`; drain (capture, clear, persist); enrich; dispatch through
`send_intelligently` when anything survived enrichment. The first
component is the state after the call; the second is `.error` when a
collaborator exception escaped the cycle, else the dispatch report
(`none` when nothing was dispatched). -/
def process_message_queue (cfg : Config) (ok : Bool) (col : Collaborators)
    (env : SendEnv) (st : PluginState) :
    PluginState × Except Unit (Option SendReport) :=
  if st.message_queue = [] ∨ cfg.group_id = "" then
    (st, .ok none)
  else
    let (captured, st') := drain_all ok st
    match enrich_all cfg col captured with
    | .error e => (st', .error e)
    | .ok final_messages =>
      if final_messages.isEmpty then
        (st', .ok none)
      else
        (st', .ok (some (send_intelligently cfg env final_messages)))

/-- One tick of `Main.start_batch_processor`: the cycle runs and any
exception it raises is caught and logged there, so the scheduler task
survives with whatever state the cycle left behind. -/
def processor_tick (cfg : Config) (ok : Bool) (col : Collaborators)
    (env : SendEnv) (st : PluginState) : PluginState :=
  (process_message_queue cfg ok col env st).1

/-! ## Interleaved appends and drains

The asyncio event loop interleaves HTTP-handler appends with the
scheduler's drain only at `await` points; `queue.copy()` followed by
`queue.clear()` has no `await` between them, so a drain is one atomic
step of this transition system. -/

/-- An operation on the shared queue: an append from some HTTP handler,
or the scheduler's capture-and-clear. -/
inductive QOp where
  | append (m : Msg)
  | drain
  deriving Repr

/-- Step of the queue system: state is the live queue plus the list of
batches captured by past drains. -/
def stepQ : List Msg × List (List Msg) → QOp → List Msg × List (List Msg)
  | (q, ds), QOp.append m => (q ++ [m], ds)
  | (q, ds), QOp.drain => ([], ds ++ [q])

/-- Run a sequence of interleaved operations from the empty queue. -/
def runQ (ops : List QOp) : List Msg × List (List Msg) :=
  ops.foldl stepQ ([], [])

/-- The records appended by a sequence of operations, in order. -/
def appendedMsgs : List QOp → List Msg
  | [] => []
  | QOp.append m :: rest => m :: appendedMsgs rest
  | QOp.drain :: rest => appendedMsgs rest

/-! ## HTTP ingestion handlers -/

/-- An inbound HTTP POST as the handlers see it: header mapping, body
text, whether `await request.text()` raises, and the `json.loads` result
of the body (`none` when it would raise). -/
structure Request where
  headers : List (String × String)
  body : String
  textRaises : Bool
  json : Option Val
  deriving Repr

/-- An HTTP response (text and status). -/
structure Response where
  text : String
  status : Nat
  deriving DecidableEq, Repr

/-- `Main._check_auth`: an empty configured token disables auth, else the
`X-Webhook-Token` header must equal the configured token. -/
def check_auth (webhook_token : String) (req : Request) : Bool :=
  if webhook_token = "" then true
  else
    match lookupHeader req.headers "X-Webhook-Token" with
    | some t => t = webhook_token
    | none => false

/-- `Main.handle_media_webhook`: auth, read body and headers, enqueue the
raw payload stamped with a fresh `trace_id`, answer 200 with the trace
id; an exception while reading yields 500 with no mutation. -/
def handle_media_webhook (cfg : Config) (ok : Bool) (trace_id : String)
    (now : Nat) (req : Request) (st : PluginState) : Response × PluginState :=
  if ¬ check_auth cfg.webhook_token req then
    (⟨"Unauthorized", 401⟩, st)
  else if req.textRaises then
    (⟨"Internal Error", 500⟩, st)
  else
    let raw_payload : Msg :=
      [("raw_data", .vs req.body),
       ("headers", .vh req.headers),
       ("timestamp", .vn now),
       ("message_type", .vs "raw_media"),
       ("trace_id", .vs trace_id),
       ("template", .vs cfg.media_template)]
    (⟨"已加入队列 (ID: " ++ trace_id ++ ")", 200⟩, enqueue ok raw_payload st)

/-- `Main.handle_game_webhook`: like the media handler but the body is
parsed as JSON first; a parse failure raises inside the `try` and yields
500 with no mutation. -/
def handle_game_webhook (cfg : Config) (ok : Bool) (trace_id : String)
    (now : Nat) (req : Request) (st : PluginState) : Response × PluginState :=
  if ¬ check_auth cfg.webhook_token req then
    (⟨"Unauthorized", 401⟩, st)
  else if req.textRaises then
    (⟨"Internal Error", 500⟩, st)
  else
    match req.json with
    | none => (⟨"Internal Error", 500⟩, st)
    | some payload =>
      let raw_payload : Msg :=
        [("raw_data", payload),
         ("headers", .vh req.headers),
         ("timestamp", .vn now),
         ("message_type", .vs "raw_game"),
         ("trace_id", .vs trace_id),
         ("template", .vs cfg.game_template)]
      (⟨"已加入队列 (ID: " ++ trace_id ++ ")", 200⟩, enqueue ok raw_payload st)

/-- `Main.handle_common_webhook`: the common collaborator normalizes the
body synchronously; a result lacking `message_text` is rejected with 400,
a collaborator exception yields 500, otherwise the result is stamped and
enqueued. -/
def handle_common_webhook (cfg : Config) (ok : Bool) (trace_id : String)
    (now : Nat)
    (commonProc : String → List (String × String) → Except Unit (Option Msg))
    (req : Request) (st : PluginState) : Response × PluginState :=
  if ¬ check_auth cfg.webhook_token req then
    (⟨"Unauthorized", 401⟩, st)
  else if req.textRaises then
    (⟨"Internal Error", 500⟩, st)
  else
    match commonProc req.body req.headers with
    | .error _ => (⟨"Internal Error", 500⟩, st)
    | .ok result =>
      match result with
      | some r =>
        if (getField r "message_text").isSome then
          let r := setField r "timestamp" (.vn now)
          let r := setField r "trace_id" (.vs trace_id)
          let r := setField r "template" (.vs cfg.common_template)
          (⟨"已加入队列 (ID: " ++ trace_id ++ ")", 200⟩, enqueue ok r st)
        else
          (⟨"无效数据", 400⟩, st)
      | none => (⟨"无效数据", 400⟩, st)

/-! ## Concrete fixtures used by witnesses and counterexamples -/

/-- A configuration with a delivery destination set, no auth token, and
the default `batch_min_size = 3`. -/
def cfgEx : Config :=
  ⟨"12345", "llonebot", 3, "", "media_news.html", "game_modern.html",
   "common_blog.html"⟩

/-- Like `cfgEx` but with an auth token configured. -/
def cfgTokEx : Config :=
  ⟨"12345", "llonebot", 3, "secret", "media_news.html", "game_modern.html",
   "common_blog.html"⟩

/-- A send environment whose calls all succeed. -/
def envEx : SendEnv :=
  ⟨fun _ => .ok (some "img"), fun _ => .ok (),
   fun n => if n = "llonebot" then some ⟨"llonebot", some "bot"⟩ else none,
   [⟨"llonebot", some "bot"⟩], fun _ => .ok ()⟩

/-- A send environment whose forward send raises. -/
def envForwardRaise : SendEnv :=
  ⟨fun _ => .ok (some "img"), fun _ => .ok (),
   fun n => if n = "llonebot" then some ⟨"llonebot", some "bot"⟩ else none,
   [⟨"llonebot", some "bot"⟩], fun _ => .error ()⟩

/-- Collaborators whose media enrichment raises. -/
def colThrow : Collaborators :=
  ⟨fun _ => .error (), fun _ _ => .ok none⟩

/-- Collaborators that drop everything without raising. -/
def colNone : Collaborators :=
  ⟨fun _ => .ok none, fun _ _ => .ok none⟩

/-- A queued raw media record. -/
def mMediaEx : Msg :=
  [("raw_data", .vs "payload"), ("headers", .vh []), ("timestamp", .vn 1),
   ("message_type", .vs "raw_media"), ("trace_id", .vs "aaaa1111"),
   ("template", .vs "media_news.html")]

/-- A queued already-normalized common record. -/
def mCommonEx : Msg :=
  [("message_text", .vs "hello"), ("timestamp", .vn 2),
   ("trace_id", .vs "bbbb2222"), ("template", .vs "common_blog.html")]

/-- A second pass-through record, with no `message_type` field at all. -/
def mPlainEx : Msg :=
  [("message_text", .vs "plain"), ("trace_id", .vs "cccc3333")]

/-- A state holding one raw media record then one common record, already
persisted. -/
def stEx : PluginState :=
  ⟨[mMediaEx, mCommonEx], [mMediaEx, mCommonEx]⟩

/-- An authenticated request presenting the configured token. -/
def reqTokEx : Request :=
  ⟨[("X-Webhook-Token", "secret")], "the body", false, some (.vh [])⟩

/-- A request presenting a wrong token. -/
def reqBadTokEx : Request :=
  ⟨[("X-Webhook-Token", "wrong")], "the body", false, some (.vh [])⟩

/-- A common-webhook collaborator that always normalizes successfully. -/
def commonProcEx (_body : String) (_hs : List (String × String)) :
    Except Unit (Option Msg) :=
  .ok (some [("message_text", .vs "normalized")])

/-! ## Helper lemmas -/

/-- Generalized invariant of the interleaved append/drain system: the
drained batches followed by the live queue always list exactly the
appended records, in order. -/
theorem stepQ_foldl_invariant (ops : List QOp) (q : List Msg)
    (ds : List (List Msg)) :
    ((ops.foldl stepQ (q, ds)).2.flatten) ++ (ops.foldl stepQ (q, ds)).1
      = ds.flatten ++ q ++ appendedMsgs ops := by
  induction ops generalizing q ds with
  | nil => simp [appendedMsgs]
  | cons op rest ih =>
    cases op with
    | append m =>
      simp only [List.foldl_cons, stepQ, appendedMsgs, ih, List.append_assoc,
        List.cons_append, List.nil_append, List.singleton_append]
    | drain =>
      simp only [List.foldl_cons, stepQ, appendedMsgs, ih, List.flatten_append,
        List.flatten_cons, List.flatten_nil, List.append_assoc,
        List.append_nil, List.nil_append]

/-- `getField` unfolded one entry at a time. -/
theorem getField_cons (a : String × Val) (t : Msg) (k : String) :
    getField (a :: t) k = if a.1 = k then some a.2 else getField t k := by
  by_cases h : a.1 = k
  · simp [getField, List.find?_cons_of_pos, h]
  · simp [getField, List.find?_cons_of_neg, h]

/-- The in-place branch of `setField` updates the looked-up key. -/
theorem getField_map_set_same (m : Msg) (k : String) (v : Val)
    (h : m.any (fun p => p.1 = k) = true) :
    getField (m.map (fun p => if p.1 = k then (k, v) else p)) k = some v := by
  induction m with
  | nil => simp at h
  | cons a t ih =>
    by_cases ha : a.1 = k
    · simp [getField_cons, ha]
    · have ht : t.any (fun p => p.1 = k) = true := by
        simpa [ha] using h
      simpa [getField_cons, ha] using ih ht

/-- The in-place branch of `setField` leaves other keys alone. -/
theorem getField_map_set_other (m : Msg) (k k' : String) (v : Val)
    (h : k ≠ k') :
    getField (m.map (fun p => if p.1 = k' then (k', v) else p)) k
      = getField m k := by
  induction m with
  | nil => rfl
  | cons a t ih =>
    by_cases ha : a.1 = k'
    · have hak : ¬ (a.1 = k) := by
        rw [ha]
        exact fun hc => h hc.symm
      have hk'k : ¬ (k' = k) := fun hc => h hc.symm
      simp [getField_cons, ha, hak, hk'k, ih]
    · rw [List.map_cons, if_neg ha, getField_cons, getField_cons, ih]

/-- Setting a key then reading it back gives the new value. -/
theorem getField_setField_same (m : Msg) (k : String) (v : Val) :
    getField (setField m k v) k = some v := by
  unfold setField
  by_cases hany : m.any (fun p => p.1 = k)
  · rw [if_pos hany]
    exact getField_map_set_same m k v hany
  · rw [if_neg hany]
    unfold getField
    rw [List.find?_append]
    have hnone : List.find? (fun p => decide (p.1 = k)) m = none := by
      apply List.find?_eq_none.mpr
      intro x hx
      simp only [List.any_eq_true] at hany
      push_neg at hany
      simpa using hany x hx
    simp [hnone]

/-- Setting one key leaves every other key unchanged. -/
theorem getField_setField_other (m : Msg) (k k' : String) (v : Val)
    (h : k ≠ k') :
    getField (setField m k' v) k = getField m k := by
  unfold setField
  by_cases hany : m.any (fun p => p.1 = k')
  · rw [if_pos hany]
    exact getField_map_set_other m k k' v h
  · rw [if_neg hany]
    unfold getField
    rw [List.find?_append]
    cases hf : List.find? (fun p => decide (p.1 = k)) m with
    | some x => simp
    | none =>
      have hk'k : ¬ (k' = k) := fun hc => h hc.symm
      simp [hk'k]

/-- A record whose `message_type` is neither `raw_media` nor `raw_game`
passes through the enrichment loop body untouched. -/
theorem enrich_one_passthrough (cfg : Config) (col : Collaborators)
    (msg : Msg)
    (h1 : getField msg "message_type" ≠ some (.vs "raw_media"))
    (h2 : getField msg "message_type" ≠ some (.vs "raw_game")) :
    enrich_one cfg col msg = .ok [msg] := by
  unfold enrich_one
  rw [if_neg h1, if_neg h2]
  rfl

/-- A queue of pass-through records survives the enrichment loop as is. -/
theorem enrich_all_passthrough (cfg : Config) (col : Collaborators)
    (l : List Msg)
    (h : ∀ m ∈ l, getField m "message_type" ≠ some (.vs "raw_media") ∧
          getField m "message_type" ≠ some (.vs "raw_game")) :
    enrich_all cfg col l = .ok l := by
  induction l with
  | nil => rfl
  | cons m rest ih =>
    have hm := h m (by simp)
    have hrest := ih (fun x hx => h x (by simp [hx]))
    show (do
        let r ← enrich_one cfg col m
        let rs ← enrich_all cfg col rest
        pure (r ++ rs)) = Except.ok (m :: rest)
    rw [enrich_one_passthrough cfg col m hm.1 hm.2, hrest]
    rfl

/-! ## Claim theorems -/

/-- C1: Draining a queue of N records hands exactly those N records, in
insertion order, to enrichment (`drain_all` returns the queue itself),
leaves the in-memory queue empty immediately after the capture, and
persists the empty state; and in the interleaved append/drain transition
system (capture-and-clear is one atomic step, as the Python block has no
`await` between `copy()` and `clear()`), every appended record ends up in
exactly one drained batch or the live queue — none lost, none duplicated,
order preserved. -/
theorem drain_captures_exactly_then_persists_empty :
    (∀ (ok : Bool) (st : PluginState),
        (drain_all ok st).1 = st.message_queue ∧
        (drain_all ok st).2.message_queue = [] ∧
        (drain_all true st).2.kv = []) ∧
    (∀ ops : List QOp,
        ((runQ ops).2.flatten) ++ (runQ ops).1 = appendedMsgs ops) := by
  constructor
  · intro ok st
    exact ⟨rfl, rfl, rfl⟩
  · intro ops
    simpa [runQ] using stepQ_foldl_invariant ops [] []

/-- C2: An authenticated, well-formed POST to any of the three webhook
routes appends exactly one record to the queue (length grows by one),
the appended record carries the freshly generated trace id, and the 200
response body carries that same trace id. -/
theorem authed_post_appends_one_with_trace :
    (∀ (cfg : Config) (ok : Bool) (trace_id : String) (now : Nat)
        (req : Request) (st : PluginState),
      check_auth cfg.webhook_token req = true →
      req.textRaises = false →
      ∃ rec : Msg,
        (handle_media_webhook cfg ok trace_id now req st).2.message_queue
          = st.message_queue ++ [rec] ∧
        (handle_media_webhook cfg ok trace_id now req st).2.message_queue.length
          = st.message_queue.length + 1 ∧
        getField rec "trace_id" = some (.vs trace_id) ∧
        (handle_media_webhook cfg ok trace_id now req st).1
          = ⟨"已加入队列 (ID: " ++ trace_id ++ ")", 200⟩) ∧
    (∀ (cfg : Config) (ok : Bool) (trace_id : String) (now : Nat)
        (req : Request) (st : PluginState) (payload : Val),
      check_auth cfg.webhook_token req = true →
      req.textRaises = false →
      req.json = some payload →
      ∃ rec : Msg,
        (handle_game_webhook cfg ok trace_id now req st).2.message_queue
          = st.message_queue ++ [rec] ∧
        (handle_game_webhook cfg ok trace_id now req st).2.message_queue.length
          = st.message_queue.length + 1 ∧
        getField rec "trace_id" = some (.vs trace_id) ∧
        (handle_game_webhook cfg ok trace_id now req st).1
          = ⟨"已加入队列 (ID: " ++ trace_id ++ ")", 200⟩) ∧
    (∀ (cfg : Config) (ok : Bool) (trace_id : String) (now : Nat)
        (commonProc : String → List (String × String) → Except Unit (Option Msg))
        (req : Request) (st : PluginState) (r : Msg),
      check_auth cfg.webhook_token req = true →
      req.textRaises = false →
      commonProc req.body req.headers = .ok (some r) →
      (getField r "message_text").isSome = true →
      ∃ rec : Msg,
        (handle_common_webhook cfg ok trace_id now commonProc req st).2.message_queue
          = st.message_queue ++ [rec] ∧
        (handle_common_webhook cfg ok trace_id now commonProc req st).2.message_queue.length
          = st.message_queue.length + 1 ∧
        getField rec "trace_id" = some (.vs trace_id) ∧
        (handle_common_webhook cfg ok trace_id now commonProc req st).1
          = ⟨"已加入队列 (ID: " ++ trace_id ++ ")", 200⟩) := by
  refine ⟨?_, ?_, ?_⟩
  · intro cfg ok trace_id now req st hauth hread
    refine ⟨[("raw_data", .vs req.body), ("headers", .vh req.headers),
      ("timestamp", .vn now), ("message_type", .vs "raw_media"),
      ("trace_id", .vs trace_id), ("template", .vs cfg.media_template)],
      ?_, ?_, ?_, ?_⟩ <;>
      simp [handle_media_webhook, hauth, hread, enqueue, save_queue, getField]
  · intro cfg ok trace_id now req st payload hauth hread hjson
    refine ⟨[("raw_data", payload), ("headers", .vh req.headers),
      ("timestamp", .vn now), ("message_type", .vs "raw_game"),
      ("trace_id", .vs trace_id), ("template", .vs cfg.game_template)],
      ?_, ?_, ?_, ?_⟩ <;>
      simp [handle_game_webhook, hauth, hread, hjson, enqueue, save_queue,
        getField]
  · intro cfg ok trace_id now commonProc req st r hauth hread hproc htext
    refine ⟨setField (setField (setField r "timestamp" (.vn now))
      "trace_id" (.vs trace_id)) "template" (.vs cfg.common_template),
      ?_, ?_, ?_, ?_⟩
    · simp [handle_common_webhook, hauth, hread, hproc, htext, enqueue,
        save_queue]
    · simp [handle_common_webhook, hauth, hread, hproc, htext, enqueue,
        save_queue]
    · rw [getField_setField_other _ _ _ _ (by decide),
        getField_setField_same]
    · simp [handle_common_webhook, hauth, hread, hproc, htext]

/-- C3: When a webhook token is configured, a POST whose
`X-Webhook-Token` header is missing or differs is answered 401
"Unauthorized" by each of the three webhook handlers, and the state
(in-memory queue and persisted snapshot alike) is left untouched. -/
theorem bad_token_rejected_without_mutation (cfg : Config) (ok : Bool)
    (trace_id : String) (now : Nat)
    (commonProc : String → List (String × String) → Except Unit (Option Msg))
    (req : Request) (st : PluginState)
    (htok : cfg.webhook_token ≠ "")
    (hhdr : lookupHeader req.headers "X-Webhook-Token"
              ≠ some cfg.webhook_token) :
    handle_media_webhook cfg ok trace_id now req st = (⟨"Unauthorized", 401⟩, st) ∧
    handle_game_webhook cfg ok trace_id now req st = (⟨"Unauthorized", 401⟩, st) ∧
    handle_common_webhook cfg ok trace_id now commonProc req st
      = (⟨"Unauthorized", 401⟩, st) := by
  have hfalse : check_auth cfg.webhook_token req = false := by
    unfold check_auth
    rw [if_neg htok]
    cases h : lookupHeader req.headers "X-Webhook-Token" with
    | none => rfl
    | some t =>
      have : t ≠ cfg.webhook_token := fun he => hhdr (by rw [h, he])
      simpa using this
  refine ⟨?_, ?_, ?_⟩ <;>
    simp [handle_media_webhook, handle_game_webhook, handle_common_webhook,
      hfalse]

/-- C3 witness: the media, game and common handlers each reject a request
carrying a wrong token with 401 and leave the state unchanged. -/
theorem bad_token_rejected_without_mutation_witness :
    handle_media_webhook cfgTokEx true "dddd4444" 5 reqBadTokEx stEx
      = (⟨"Unauthorized", 401⟩, stEx) ∧
    handle_game_webhook cfgTokEx true "dddd4444" 5 reqBadTokEx stEx
      = (⟨"Unauthorized", 401⟩, stEx) ∧
    handle_common_webhook cfgTokEx true "dddd4444" 5 commonProcEx reqBadTokEx stEx
      = (⟨"Unauthorized", 401⟩, stEx) :=
  bad_token_rejected_without_mutation cfgTokEx true "dddd4444" 5 commonProcEx
    reqBadTokEx stEx (by decide) (by decide)

/-- C2 witness: concrete authenticated POSTs to the media, game and
common routes each append one record stamped with the response's trace
id. -/
theorem authed_post_appends_one_with_trace_witness :
    (∃ rec : Msg,
      (handle_media_webhook cfgTokEx true "eeee5555" 7 reqTokEx stEx).2.message_queue
        = stEx.message_queue ++ [rec] ∧
      (handle_media_webhook cfgTokEx true "eeee5555" 7 reqTokEx stEx).2.message_queue.length
        = stEx.message_queue.length + 1 ∧
      getField rec "trace_id" = some (.vs "eeee5555") ∧
      (handle_media_webhook cfgTokEx true "eeee5555" 7 reqTokEx stEx).1
        = ⟨"已加入队列 (ID: " ++ "eeee5555" ++ ")", 200⟩) ∧
    (∃ rec : Msg,
      (handle_game_webhook cfgTokEx true "ffff6666" 8 reqTokEx stEx).2.message_queue
        = stEx.message_queue ++ [rec] ∧
      (handle_game_webhook cfgTokEx true "ffff6666" 8 reqTokEx stEx).2.message_queue.length
        = stEx.message_queue.length + 1 ∧
      getField rec "trace_id" = some (.vs "ffff6666") ∧
      (handle_game_webhook cfgTokEx true "ffff6666" 8 reqTokEx stEx).1
        = ⟨"已加入队列 (ID: " ++ "ffff6666" ++ ")", 200⟩) ∧
    (∃ rec : Msg,
      (handle_common_webhook cfgTokEx true "abab7777" 9 commonProcEx reqTokEx stEx).2.message_queue
        = stEx.message_queue ++ [rec] ∧
      (handle_common_webhook cfgTokEx true "abab7777" 9 commonProcEx reqTokEx stEx).2.message_queue.length
        = stEx.message_queue.length + 1 ∧
      getField rec "trace_id" = some (.vs "abab7777") ∧
      (handle_common_webhook cfgTokEx true "abab7777" 9 commonProcEx reqTokEx stEx).1
        = ⟨"已加入队列 (ID: " ++ "abab7777" ++ ")", 200⟩) :=
  ⟨authed_post_appends_one_with_trace.1 cfgTokEx true "eeee5555" 7 reqTokEx
      stEx (by decide) rfl,
   authed_post_appends_one_with_trace.2.1 cfgTokEx true "ffff6666" 8 reqTokEx
      stEx (.vh []) (by decide) rfl rfl,
   authed_post_appends_one_with_trace.2.2 cfgTokEx true "abab7777" 9
      commonProcEx reqTokEx stEx [("message_text", .vs "normalized")]
      (by decide) rfl rfl rfl⟩

/-- C4: Persisting a queue of N records and restoring after a restart
reconstructs exactly those N records, in order, and a record enqueued
after the restore lands behind all restored records. -/
theorem save_then_restore_is_identity (st : PluginState) (ok2 : Bool)
    (m : Msg) :
    (initialize_restore (restart (save_queue true st))).message_queue
      = st.message_queue ∧
    (initialize_restore (restart (save_queue true st))).message_queue.length
      = st.message_queue.length ∧
    (enqueue ok2 m (initialize_restore (restart (save_queue true st)))).message_queue
      = st.message_queue ++ [m] := by
  have hq : (initialize_restore (restart (save_queue true st))).message_queue
      = st.message_queue := by
    cases h : st.message_queue with
    | nil => simp [initialize_restore, restart, save_queue, put_kv_data, h]
    | cons a l => simp [initialize_restore, restart, save_queue, put_kv_data, h]
  have h3 : ∀ st' : PluginState,
      (enqueue ok2 m st').message_queue = st'.message_queue ++ [m] := by
    intro st'
    simp [enqueue, save_queue]
  exact ⟨hq, by rw [hq], by rw [h3, hq]⟩

/-- C5: `send_intelligently` uses the batch strategy exactly when the
enriched-message count reaches `batch_min_size` and the individual
strategy when it is strictly below; with `batch_min_size = 3`, two
messages yield two individual dispatches and three messages one batch
dispatch. -/
theorem batch_decision_boundary :
    (∀ (cfg : Config) (env : SendEnv) (messages : List Msg),
      (messages.length ≥ cfg.batch_min_size →
        send_intelligently cfg env messages
          = .batch (send_batch_messages env
              (get_effective_platform_name cfg.platform_name
                (env.insts.map Platform.id)) messages)) ∧
      (messages.length < cfg.batch_min_size →
        send_intelligently cfg env messages
          = .individual
              (send_individual_messages env.render env.sendMsg messages))) ∧
    (∀ (cfg : Config) (env : SendEnv) (mA mB mC : Msg),
      cfg.batch_min_size = 3 →
      (∃ out, send_intelligently cfg env [mA, mB] = .individual out ∧
        out.length = 2) ∧
      (∃ r, send_intelligently cfg env [mA, mB, mC] = .batch r)) := by
  constructor
  · intro cfg env messages
    constructor
    · intro h
      rw [send_intelligently, if_pos h]
    · intro h
      rw [send_intelligently, if_neg (Nat.not_le.mpr h)]
  · intro cfg env mA mB mC h3
    refine ⟨⟨send_individual_messages env.render env.sendMsg [mA, mB], ?_, ?_⟩,
      ⟨send_batch_messages env
        (get_effective_platform_name cfg.platform_name
          (env.insts.map Platform.id)) [mA, mB, mC], ?_⟩⟩
    · rw [send_intelligently, if_neg (by simp [h3])]
    · rfl
    · rw [send_intelligently, if_pos (by simp [h3])]

/-- C5 witness: at `batch_min_size = 3` with all-succeeding transports,
two concrete messages go out individually and three as one batch. -/
theorem batch_decision_boundary_witness :
    send_intelligently cfgEx envEx [mCommonEx, mPlainEx]
      = .individual (send_individual_messages envEx.render envEx.sendMsg
          [mCommonEx, mPlainEx]) ∧
    send_intelligently cfgEx envEx [mCommonEx, mPlainEx, mCommonEx]
      = .batch (send_batch_messages envEx
          (get_effective_platform_name cfgEx.platform_name
            (envEx.insts.map Platform.id)) [mCommonEx, mPlainEx, mCommonEx]) ∧
    (∃ out, send_intelligently cfgEx envEx [mCommonEx, mPlainEx]
        = .individual out ∧ out.length = 2) ∧
    (∃ r, send_intelligently cfgEx envEx [mCommonEx, mPlainEx, mCommonEx]
        = .batch r) :=
  ⟨(batch_decision_boundary.1 cfgEx envEx [mCommonEx, mPlainEx]).2 (by decide),
   (batch_decision_boundary.1 cfgEx envEx
      [mCommonEx, mPlainEx, mCommonEx]).1 (by decide),
   (batch_decision_boundary.2 cfgEx envEx mCommonEx mPlainEx mCommonEx rfl).1,
   (batch_decision_boundary.2 cfgEx envEx mCommonEx mPlainEx mCommonEx rfl).2⟩

/-- C6: When the `try` body of the batch send path raises, the dispatcher
falls back to the individual path on the very same message set: one
individual attempt per message (N attempts, not zero), so the messages
are not discarded. -/
theorem batch_raise_falls_back_individually (env : SendEnv)
    (effective : String) (messages : List Msg)
    (h : batch_try env effective messages = .error ()) :
    send_batch_messages env effective messages
      = .fellBack (send_individual_messages env.render env.sendMsg messages) ∧
    (send_individual_messages env.render env.sendMsg messages).length
      = messages.length ∧
    (messages ≠ [] →
      send_individual_messages env.render env.sendMsg messages ≠ []) := by
  refine ⟨?_, ?_, ?_⟩
  · rw [send_batch_messages, h]
  · simp [send_individual_messages]
  · intro hne
    simpa [send_individual_messages] using hne

/-- C6 witness: with a forward send that raises, a concrete two-message
batch falls back to two individual attempts. -/
theorem batch_raise_falls_back_individually_witness :
    send_batch_messages envForwardRaise "llonebot" [mCommonEx, mPlainEx]
      = .fellBack (send_individual_messages envForwardRaise.render
          envForwardRaise.sendMsg [mCommonEx, mPlainEx]) ∧
    (send_individual_messages envForwardRaise.render envForwardRaise.sendMsg
        [mCommonEx, mPlainEx]).length = 2 ∧
    ([mCommonEx, mPlainEx] ≠ ([] : List Msg) →
      send_individual_messages envForwardRaise.render envForwardRaise.sendMsg
        [mCommonEx, mPlainEx] ≠ []) :=
  batch_raise_falls_back_individually envForwardRaise "llonebot"
    [mCommonEx, mPlainEx] rfl

/-- C9: A scheduler cycle that starts with an empty queue or with no
configured `group_id` returns immediately: the state (queue and persisted
snapshot) is exactly the input state, nothing is dispatched, and — since
the equation holds for every collaborator and send environment — no
collaborator is invoked and nothing is sent or persisted. -/
theorem idle_cycle_has_no_side_effects (cfg : Config) (ok : Bool)
    (col : Collaborators) (env : SendEnv) (st : PluginState)
    (h : st.message_queue = [] ∨ cfg.group_id = "") :
    process_message_queue cfg ok col env st = (st, .ok none) := by
  rw [process_message_queue, if_pos h]

/-- C9 witness: a cycle on an empty queue leaves the persisted snapshot
and queue untouched and dispatches nothing, for a throwing collaborator
as much as a benign one. -/
theorem idle_cycle_has_no_side_effects_witness :
    process_message_queue cfgEx true colThrow envEx ⟨[], [mCommonEx]⟩
      = (⟨[], [mCommonEx]⟩, .ok none) :=
  idle_cycle_has_no_side_effects cfgEx true colThrow envEx ⟨[], [mCommonEx]⟩
    (Or.inl rfl)

/-- C10: A drained record whose `message_type` is neither `raw_media` nor
`raw_game` (including records with no `message_type` at all) passes the
enrichment loop as exactly the same dict — no field added, removed or
rewritten, independent of the collaborators — and a queue of such records
reaches the dispatch step unchanged. -/
theorem passthrough_records_reach_dispatch_unchanged :
    (∀ (cfg : Config) (col : Collaborators) (msg : Msg),
      getField msg "message_type" ≠ some (.vs "raw_media") →
      getField msg "message_type" ≠ some (.vs "raw_game") →
      enrich_one cfg col msg = .ok [msg]) ∧
    (∀ (cfg : Config) (ok : Bool) (col : Collaborators) (env : SendEnv)
        (st : PluginState),
      (∀ m ∈ st.message_queue,
        getField m "message_type" ≠ some (.vs "raw_media") ∧
        getField m "message_type" ≠ some (.vs "raw_game")) →
      st.message_queue ≠ [] → cfg.group_id ≠ "" →
      process_message_queue cfg ok col env st
        = ((drain_all ok st).2,
           .ok (some (send_intelligently cfg env st.message_queue)))) := by
  constructor
  · exact enrich_one_passthrough
  · intro cfg ok col env st hall hq hg
    have hneg : ¬ (st.message_queue = [] ∨ cfg.group_id = "") := by
      push_neg
      exact ⟨hq, hg⟩
    have he := enrich_all_passthrough cfg col st.message_queue hall
    rw [process_message_queue, if_neg hneg]
    simp only [drain_all]
    rw [he]
    simp [List.isEmpty_iff, hq]

/-- C10 witness: a record with no `message_type` field survives the loop
body untouched even under a throwing collaborator, and a queue of two
pass-through records reaches dispatch exactly as drained. -/
theorem passthrough_records_reach_dispatch_unchanged_witness :
    enrich_one cfgEx colThrow mCommonEx = .ok [mCommonEx] ∧
    process_message_queue cfgEx true colThrow envEx ⟨[mCommonEx, mPlainEx], []⟩
      = ((drain_all true ⟨[mCommonEx, mPlainEx], []⟩).2,
         .ok (some (send_intelligently cfgEx envEx [mCommonEx, mPlainEx]))) :=
  ⟨passthrough_records_reach_dispatch_unchanged.1 cfgEx colThrow mCommonEx
      (by decide) (by decide),
   passthrough_records_reach_dispatch_unchanged.2 cfgEx true colThrow envEx
      ⟨[mCommonEx, mPlainEx], []⟩ (by decide) (by decide) (by decide)⟩

/-- The post-cycle state never depends on the send environment: it is the
input state when the guard fires, else the drained state. -/
theorem process_state_component (cfg : Config) (ok : Bool)
    (col : Collaborators) (env : SendEnv) (st : PluginState) :
    (process_message_queue cfg ok col env st).1
      = if st.message_queue = [] ∨ cfg.group_id = "" then st
        else (drain_all ok st).2 := by
  rw [process_message_queue]
  split
  · rfl
  · simp only [drain_all]
    cases enrich_all cfg col st.message_queue with
    | error e => rfl
    | ok fm =>
      by_cases h : fm.isEmpty <;> simp [h, drain_all]

/-- C8: Platform resolution for a batch send follows the exact fallback
order of the source: the effective (configured or auto-inferred) name
first; `aiocqhttp` second, only when the name is the `llonebot` or
`napcat` alias; the first loaded platform instance third; and when no
client is obtainable at all the batch send gives up with a logged error —
no individual fallback and, since the post-cycle state is independent of
the whole send environment, no re-queueing of the messages. -/
theorem platform_resolution_fallback_order :
    (∀ (getInst : String → Option Platform) (insts : List Platform)
        (effective : String) (p : Platform),
      getInst effective = some p →
      resolve_platform getInst insts effective = some p) ∧
    (∀ (getInst : String → Option Platform) (insts : List Platform)
        (effective : String) (p : Platform),
      getInst effective = none →
      (effective = "llonebot" ∨ effective = "napcat") →
      getInst "aiocqhttp" = some p →
      resolve_platform getInst insts effective = some p) ∧
    (∀ (getInst : String → Option Platform) (insts : List Platform)
        (effective : String),
      getInst effective = none →
      getInst "aiocqhttp" = none →
      resolve_platform getInst insts effective = insts.head?) ∧
    (∀ (env : SendEnv) (effective : String) (messages : List Msg)
        (imgs : List Img),
      (resolve_platform env.getInst env.insts effective).bind Platform.client
        = none →
      renderAll env.render messages = .ok imgs →
      imgs ≠ [] →
      send_batch_messages env effective messages = .noBot) ∧
    (∀ (cfg : Config) (ok : Bool) (col : Collaborators) (env env' : SendEnv)
        (st : PluginState),
      (process_message_queue cfg ok col env st).1
        = (process_message_queue cfg ok col env' st).1) := by
  refine ⟨?_, ?_, ?_, ?_, ?_⟩
  · intro getInst insts effective p h
    simp [resolve_platform, h]
  · intro getInst insts effective p h1 halias h2
    cases halias with
    | inl h => subst h; simp [resolve_platform, h1, h2]
    | inr h => subst h; simp [resolve_platform, h1, h2]
  · intro getInst insts effective h1 h2
    by_cases halias : effective = "llonebot" ∨ effective = "napcat"
    · rcases halias with h | h <;> (subst h; simp [resolve_platform, h1, h2])
    · have hne1 : effective ≠ "llonebot" := fun hc => halias (Or.inl hc)
      have hne2 : effective ≠ "napcat" := fun hc => halias (Or.inr hc)
      simp [resolve_platform, h1, hne1, hne2]
  · intro env effective messages imgs hres hr hne
    have hbe : imgs.isEmpty = false := by
      simpa [List.isEmpty_iff] using hne
    have hb : batch_try env effective messages = .ok .noBot := by
      unfold batch_try
      rw [hr]
      show (if imgs.isEmpty = true then pure BatchResult.noRendered
        else match (resolve_platform env.getInst env.insts effective).bind
            Platform.client with
          | none => pure BatchResult.noBot
          | some _ => do
              env.forward imgs
              pure (BatchResult.sentForward imgs.length)) = Except.ok .noBot
      rw [hbe, hres]
      rfl
    rw [send_batch_messages, hb]
  · intro cfg ok col env env' st
    rw [process_state_component cfg ok col env st,
      process_state_component cfg ok col env' st]

/-- C8 witness: the three fallback steps observed on concrete instance
tables, the give-up case on an environment with no loaded platforms, and
send-environment independence of the post-cycle state. -/
theorem platform_resolution_fallback_order_witness :
    resolve_platform envEx.getInst envEx.insts "llonebot"
      = some ⟨"llonebot", some "bot"⟩ ∧
    resolve_platform (fun n => if n = "aiocqhttp" then some ⟨"aiocqhttp", some "bot"⟩ else none)
      [] "napcat" = some ⟨"aiocqhttp", some "bot"⟩ ∧
    resolve_platform (fun _ => none) [⟨"telegram", some "tg"⟩] "napcat"
      = some ⟨"telegram", some "tg"⟩ ∧
    send_batch_messages ⟨fun _ => .ok (some "img"), fun _ => .ok (),
        fun _ => none, [], fun _ => .ok ()⟩ "llonebot" [mCommonEx]
      = .noBot ∧
    (process_message_queue cfgEx true colNone envEx stEx).1
      = (process_message_queue cfgEx true colNone envForwardRaise stEx).1 := by
  refine ⟨?_, ?_, ?_, ?_, ?_⟩
  · exact platform_resolution_fallback_order.1 envEx.getInst envEx.insts
      "llonebot" ⟨"llonebot", some "bot"⟩ rfl
  · exact platform_resolution_fallback_order.2.1
      (fun n => if n = "aiocqhttp" then some ⟨"aiocqhttp", some "bot"⟩ else none)
      [] "napcat" ⟨"aiocqhttp", some "bot"⟩ (by decide) (Or.inr rfl) (by decide)
  · exact platform_resolution_fallback_order.2.2.1 (fun _ => none)
      [⟨"telegram", some "tg"⟩] "napcat" rfl rfl
  · exact platform_resolution_fallback_order.2.2.2.1
      ⟨fun _ => .ok (some "img"), fun _ => .ok (), fun _ => none, [],
        fun _ => .ok ()⟩ "llonebot" [mCommonEx] ["img"] rfl rfl (by decide)
  · exact platform_resolution_fallback_order.2.2.2.2 cfgEx true colNone envEx
      envForwardRaise stEx

/-- C7 counterexample: with a media-enrichment collaborator that throws
on the first drained record, the claim predicts the remaining common
record of the same batch is still dispatched; instead the exception
escapes `process_message_queue` and nothing at all is dispatched that
cycle. -/
theorem collaborator_throw_aborts_cycle_cex :
    (process_message_queue cfgEx true colThrow envEx stEx).2
      = .error () ∧
    (∀ rep : SendReport,
      (process_message_queue cfgEx true colThrow envEx stEx).2
        ≠ .ok (some rep)) := by
  have h : (process_message_queue cfgEx true colThrow envEx stEx).2
      = Except.error () := rfl
  refine ⟨h, ?_⟩
  intro rep hrep
  rw [h] at hrep
  exact Except.noConfusion hrep

/-- C7 (amended): if an enrichment collaborator throws during the
per-record loop, the exception propagates out of
`process_message_queue`: the whole cycle aborts, nothing from the drained
batch is dispatched (the drained records are lost, the queue stays
drained), and the failure is caught only one level up, in the
batch-processor loop, whose tick survives with the drained state. -/
theorem collaborator_throw_aborts_whole_cycle (cfg : Config) (ok : Bool)
    (col : Collaborators) (env : SendEnv) (st : PluginState)
    (hq : st.message_queue ≠ []) (hg : cfg.group_id ≠ "")
    (he : enrich_all cfg col st.message_queue = .error ()) :
    process_message_queue cfg ok col env st
      = ((drain_all ok st).2, .error ()) ∧
    processor_tick cfg ok col env st = (drain_all ok st).2 := by
  have hneg : ¬ (st.message_queue = [] ∨ cfg.group_id = "") := by
    push_neg
    exact ⟨hq, hg⟩
  have h1 : process_message_queue cfg ok col env st
      = ((drain_all ok st).2, .error ()) := by
    rw [process_message_queue, if_neg hneg]
    simp only [drain_all]
    rw [he]
  exact ⟨h1, by rw [processor_tick, h1]⟩

/-- C7 (amended) witness: the concrete two-record batch whose first
record's collaborator throws aborts the whole cycle; the tick keeps the
drained state. -/
theorem collaborator_throw_aborts_whole_cycle_witness :
    process_message_queue cfgEx true colThrow envEx stEx
      = ((drain_all true stEx).2, .error ()) ∧
    processor_tick cfgEx true colThrow envEx stEx
      = (drain_all true stEx).2 :=
  collaborator_throw_aborts_whole_cycle cfgEx true colThrow envEx stEx
    (by decide) (by decide) rfl

end WebhookPush
